import Mathlib

/-!
Shallow embedding of the numeric core of the SMART CVD risk-reduction app
(`app_final_fixed.py`): the LDL-projection function, the 10-year risk
estimator, the 5-year and lifetime horizon converters, and the derived
ARR/RRR metrics computed in the results step.  LDL projection is pure
rational arithmetic and is embedded over `ℚ`; the risk formulas use
`exp`, `log` and real powers and are embedded over `ℝ`.
-/

namespace HopeCVD

/-- The static reduction-factor table `E` from `calculate_ldl_projection`
(fractional LDL reductions per therapy identifier); identifiers absent
from the table yield `none`. -/
def E (drug : String) : Option ℚ :=
  if drug = "Atorvastatin 80 mg" then some 0.50
  else if drug = "Rosuvastatin 20 mg" then some 0.55
  else if drug = "Ezetimibe 10 mg" then some 0.20
  else if drug = "Bempedoic acid" then some 0.18
  else if drug = "PCSK9 inhibitor" then some 0.60
  else if drug = "Inclisiran" then some 0.55
  else none

/-- One iteration of the loop body of `calculate_ldl_projection`:
`if drug in E: ldl *= (1 - E[drug])`. -/
def applyDrug (ldl : ℚ) (drug : String) : ℚ :=
  match E drug with
  | some e => ldl * (1 - e)
  | none => ldl

/-- Python `calculate_ldl_projection(baseline_ldl, pre_list, new_list)`: fold the
loop body over `pre_list + new_list` starting from the baseline, then clamp
with `max(ldl, 0.5)`. -/
def calculate_ldl_projection (baseline_ldl : ℚ) (pre_list new_list : List String) : ℚ :=
  max ((pre_list ++ new_list).foldl applyDrug baseline_ldl) 0.5

noncomputable section

open Real

/-- Python's `round(x, 1)`: round to the nearest multiple of one tenth
(ties idealised to round-half-up, as in Mathlib's `round`). -/
def round1 (x : ℝ) : ℝ := (round (10 * x) : ℝ) / 10

/-- The linear predictor `lp` computed inside `estimate_10y_risk`, with
`sex_v = 1 if sex=="Male" else 0`, `sm_v`/`dm_v` the 1/0 encodings of the
booleans, and `crp_l = log(crp+1)`. -/
def linear_predictor (age : ℝ) (sex : String) (sbp tc hdl : ℝ)
    (smoker diabetes : Bool) (egfr crp vasc : ℝ) : ℝ :=
  let sex_v : ℝ := if sex = "Male" then 1 else 0
  let sm_v : ℝ := if smoker then 1 else 0
  let dm_v : ℝ := if diabetes then 1 else 0
  let crp_l : ℝ := Real.log (crp + 1)
  0.064 * age + 0.34 * sex_v + 0.02 * sbp + 0.25 * tc
    - 0.25 * hdl + 0.44 * sm_v + 0.51 * dm_v
    - 0.2 * (egfr / 10) + 0.25 * crp_l + 0.4 * vasc

/-- The un-rounded value `min(raw*100, 95.0)` computed by
`estimate_10y_risk` before the final rounding, where
`raw = 1 - 0.900**exp(lp - 5.8)`. -/
def tenYearRaw (age : ℝ) (sex : String) (sbp tc hdl : ℝ)
    (smoker diabetes : Bool) (egfr crp vasc : ℝ) : ℝ :=
  min ((1 - (0.900 : ℝ) ^ Real.exp
    (linear_predictor age sex sbp tc hdl smoker diabetes egfr crp vasc - 5.8)) * 100) 95.0

/-- Python `estimate_10y_risk(age, sex, sbp, tc, hdl, smoker, diabetes, egfr, crp, vasc)`:
`round(min((1 - 0.900**exp(lp - 5.8))*100, 95.0), 1)`. -/
def estimate_10y_risk (age : ℝ) (sex : String) (sbp tc hdl : ℝ)
    (smoker diabetes : Bool) (egfr crp vasc : ℝ) : ℝ :=
  round1 (tenYearRaw age sex sbp tc hdl smoker diabetes egfr crp vasc)

/-- Python `convert_5yr(r10)`: `p = min(r10, 95.0)/100`;
`round(min((1-(1-p)**0.5)*100, 95.0), 1)`. -/
def convert_5yr (r10 : ℝ) : ℝ :=
  let p := min r10 95.0 / 100
  round1 (min ((1 - (1 - p) ^ (0.5 : ℝ)) * 100) 95.0)

/-- Python `estimate_lifetime_risk(age, r10)`: `years = max(85-age, 0)`;
`p10 = min(r10, 95.0)/100`; `annual = 1-(1-p10)**(1/10)`;
`round(min((1-(1-annual)**years)*100, 95.0), 1)`. -/
def estimate_lifetime_risk (age r10 : ℝ) : ℝ :=
  let years := max (85 - age) 0
  let p10 := min r10 95.0 / 100
  let annual := 1 - (1 - p10) ^ ((1 : ℝ) / 10)
  round1 (min ((1 - (1 - annual) ^ years) * 100) 95.0)

open Classical in
/-- The results step's lifetime value (line 177):
`lifetime = "N/A" if age >= 85 else fmt_pct(rlt)` — `none` models `"N/A"`. -/
def lifetimeDisplay (age r10 : ℝ) : Option ℝ :=
  if 85 ≤ age then none else some (estimate_lifetime_risk age r10)

open Classical in
/-- Line 186: `arr10 = (r10 - rlt) if age < 85 else None`. -/
def arr10 (age r10 rlt : ℝ) : Option ℝ :=
  if age < 85 then some (r10 - rlt) else none

open Classical in
/-- Line 187: `rrr10 = round(arr10/r10*100, 1) if arr10 else None` — Python
truthiness makes `arr10` falsy exactly when it is `None` or equals `0.0`. -/
def rrr10 (age r10 rlt : ℝ) : Option ℝ :=
  match arr10 age r10 rlt with
  | some a => if a = 0 then none else some (round1 (a / r10 * 100))
  | none => none

/-- Python's `math.log`, which raises a domain error on non-positive
arguments: `none` models the raised `ValueError`. -/
def mathLog (x : ℝ) : Option ℝ :=
  if x ≤ 0 then none else some (Real.log x)

open Classical in
/-- Variant of `estimate_10y_risk` with Python's `math.log` domain check made explicit:
`none` models the propagated domain error from `math.log(crp + 1)`. -/
def estimate_10y_risk_checked (age : ℝ) (sex : String) (sbp tc hdl : ℝ)
    (smoker diabetes : Bool) (egfr crp vasc : ℝ) : Option ℝ :=
  match mathLog (crp + 1) with
  | none => none
  | some crp_l =>
    let sex_v : ℝ := if sex = "Male" then 1 else 0
    let sm_v : ℝ := if smoker then 1 else 0
    let dm_v : ℝ := if diabetes then 1 else 0
    let lp := 0.064 * age + 0.34 * sex_v + 0.02 * sbp + 0.25 * tc
      - 0.25 * hdl + 0.44 * sm_v + 0.51 * dm_v
      - 0.2 * (egfr / 10) + 0.25 * crp_l + 0.4 * vasc
    some (round1 (min ((1 - (0.900 : ℝ) ^ Real.exp (lp - 5.8)) * 100) 95.0))

/-- The ten-year risk formula transcribed from the words of spec §4.2:
linear predictor, `raw = 1 − 0.900^(e^(lp − 5.8))`,
result `min(raw·100, 95.0)` rounded to one decimal. -/
def specTenYearRisk (age : ℝ) (sex : String) (sbp tc hdl : ℝ)
    (smoker diabetes : Bool) (egfr crp vasc : ℝ) : ℝ :=
  let lp := 0.064 * age + 0.34 * (if sex = "Male" then (1 : ℝ) else 0)
    + 0.02 * sbp + 0.25 * tc - 0.25 * hdl
    + 0.44 * (if smoker then (1 : ℝ) else 0)
    + 0.51 * (if diabetes then (1 : ℝ) else 0)
    - 0.2 * (egfr / 10) + 0.25 * Real.log (crp + 1) + 0.4 * vasc
  round1 (min ((1 - (0.900 : ℝ) ^ Real.exp (lp - 5.8)) * 100) 95.0)

end

/-! ### Helper lemmas about `round1` -/

lemma round_mono {x y : ℝ} (h : x ≤ y) : round x ≤ round y := by
  rw [round_eq, round_eq]
  exact Int.floor_le_floor (by linarith)

lemma round1_mono {x y : ℝ} (h : x ≤ y) : round1 x ≤ round1 y := by
  unfold round1
  have h2 : round (10 * x) ≤ round (10 * y) := round_mono (by linarith)
  have h3 : ((round (10 * x) : ℤ) : ℝ) ≤ ((round (10 * y) : ℤ) : ℝ) := by
    exact_mod_cast h2
  linarith

lemma round1_int_div_ten (k : ℤ) : round1 ((k : ℝ) / 10) = (k : ℝ) / 10 := by
  unfold round1
  rw [show (10 : ℝ) * ((k : ℝ) / 10) = (k : ℝ) by ring, round_intCast]

lemma round1_zero : round1 0 = 0 := by
  unfold round1
  norm_num

lemma round1_nonneg {x : ℝ} (h : 0 ≤ x) : 0 ≤ round1 x := by
  have := round1_mono h
  rwa [round1_zero] at this

lemma round1_le_95 {x : ℝ} (h : x ≤ 95) : round1 x ≤ 95 := by
  have h1 : round1 x ≤ round1 ((950 : ℤ) / 10 : ℝ) := by
    apply round1_mono
    norm_num
    linarith
  rw [round1_int_div_ten] at h1
  norm_num at h1
  exact h1

lemma round1_95 : round1 95 = 95 := by
  have := round1_int_div_ten 950
  norm_num at this
  exact this

/-! ### LDL projection lemmas -/

lemma E_mem {s : String} {e : ℚ} (h : E s = some e) : 0 ≤ e ∧ e ≤ 1 := by
  unfold E at h
  split_ifs at h <;> simp only [Option.some.injEq, reduceCtorEq] at h <;>
    constructor <;> rw [← h] <;> norm_num

lemma applyDrug_le {x : ℚ} (hx : 0 ≤ x) (d : String) :
    0 ≤ applyDrug x d ∧ applyDrug x d ≤ x := by
  unfold applyDrug
  cases hE : E d with
  | none => exact ⟨hx, le_refl x⟩
  | some e =>
    obtain ⟨h0, h1⟩ := E_mem hE
    show 0 ≤ x * (1 - e) ∧ x * (1 - e) ≤ x
    exact ⟨mul_nonneg hx (by linarith), by nlinarith⟩

lemma foldl_applyDrug_le (l : List String) {x : ℚ} (hx : 0 ≤ x) :
    0 ≤ l.foldl applyDrug x ∧ l.foldl applyDrug x ≤ x := by
  induction l generalizing x with
  | nil => exact ⟨hx, le_refl x⟩
  | cons d l ih =>
    obtain ⟨h0, h1⟩ := applyDrug_le hx d
    obtain ⟨g0, g1⟩ := ih h0
    exact ⟨g0, le_trans g1 h1⟩

/-- C7: for every baseline LDL > 0 and every pair of therapy-identifier
lists (including empty lists and unrecognized identifiers), the projected
LDL returned by `calculate_ldl_projection` is at least 0.5. -/
theorem claim7_ldl_floor (baseline_ldl : ℚ) (h : 0 < baseline_ldl)
    (pre_list new_list : List String) :
    0.5 ≤ calculate_ldl_projection baseline_ldl pre_list new_list :=
  le_max_right _ _

theorem claim7_witness :
    (0 : ℚ) < 3 ∧ 0.5 ≤ calculate_ldl_projection 3 ["None"] [] :=
  ⟨by norm_num, claim7_ldl_floor 3 (by norm_num) ["None"] []⟩

/-- C8: identifiers absent from the reduction-factor table (such as
"None") are neutral no-ops: projecting 3.0 with `["None"]` pre-list and
`["Atorvastatin 80 mg"]` new-list equals projecting with an empty
pre-list, and both equal 3.0 × 0.5 = 1.5. -/
theorem claim8_noop_neutral :
    calculate_ldl_projection 3 ["None"] ["Atorvastatin 80 mg"]
      = calculate_ldl_projection 3 [] ["Atorvastatin 80 mg"]
    ∧ calculate_ldl_projection 3 ["None"] ["Atorvastatin 80 mg"] = 3 * 0.5 := by
  have e1 : applyDrug 3 "None" = 3 := by simp [applyDrug, E]
  have e2 : applyDrug 3 "Atorvastatin 80 mg" = 3 * (1 - 0.5) := by
    simp [applyDrug, E]
    norm_num
  have hfold1 : calculate_ldl_projection 3 ["None"] ["Atorvastatin 80 mg"]
      = max (3 * (1 - 0.5)) 0.5 := by
    unfold calculate_ldl_projection
    rw [List.cons_append, List.nil_append, List.foldl_cons, List.foldl_cons,
      List.foldl_nil, e1, e2]
  have hfold2 : calculate_ldl_projection 3 [] ["Atorvastatin 80 mg"]
      = max (3 * (1 - 0.5)) 0.5 := by
    unfold calculate_ldl_projection
    rw [List.nil_append, List.foldl_cons, List.foldl_nil, e2]
  rw [hfold1, hfold2]
  refine ⟨rfl, ?_⟩
  rw [max_eq_left (by norm_num)]
  norm_num

/-- C10: for every baseline LDL ≥ 0.5 and every pair of therapy lists,
the projected LDL never exceeds the baseline. -/
theorem claim10_no_increase (baseline_ldl : ℚ) (h : 0.5 ≤ baseline_ldl)
    (pre_list new_list : List String) :
    calculate_ldl_projection baseline_ldl pre_list new_list ≤ baseline_ldl := by
  unfold calculate_ldl_projection
  have hf := foldl_applyDrug_le (pre_list ++ new_list)
    (le_trans (by norm_num) h)
  exact max_le hf.2 h

theorem claim10_witness :
    (0.5 : ℚ) ≤ 3
      ∧ calculate_ldl_projection 3 ["None"] ["Atorvastatin 80 mg"] ≤ 3 :=
  ⟨by norm_num, claim10_no_increase 3 (by norm_num) ["None"] ["Atorvastatin 80 mg"]⟩

/-! ### Range facts about the ten-year estimator -/

lemma tenYearRaw_nonneg (age : ℝ) (sex : String) (sbp tc hdl : ℝ)
    (smoker diabetes : Bool) (egfr crp vasc : ℝ) :
    0 ≤ tenYearRaw age sex sbp tc hdl smoker diabetes egfr crp vasc := by
  unfold tenYearRaw
  apply le_min
  · have h1 : (0.900 : ℝ) ^ Real.exp
        (linear_predictor age sex sbp tc hdl smoker diabetes egfr crp vasc - 5.8) ≤ 1 :=
      Real.rpow_le_one (by norm_num) (by norm_num) (Real.exp_pos _).le
    nlinarith
  · norm_num

lemma tenYearRaw_le_95 (age : ℝ) (sex : String) (sbp tc hdl : ℝ)
    (smoker diabetes : Bool) (egfr crp vasc : ℝ) :
    tenYearRaw age sex sbp tc hdl smoker diabetes egfr crp vasc ≤ 95 := by
  have h := min_le_right ((1 - (0.900 : ℝ) ^ Real.exp
    (linear_predictor age sex sbp tc hdl smoker diabetes egfr crp vasc - 5.8)) * 100) (95.0 : ℝ)
  unfold tenYearRaw
  calc min ((1 - (0.900 : ℝ) ^ Real.exp
      (linear_predictor age sex sbp tc hdl smoker diabetes egfr crp vasc - 5.8)) * 100) 95.0
      ≤ (95.0 : ℝ) := h
    _ = 95 := by norm_num

lemma estimate_10y_risk_nonneg (age : ℝ) (sex : String) (sbp tc hdl : ℝ)
    (smoker diabetes : Bool) (egfr crp vasc : ℝ) :
    0 ≤ estimate_10y_risk age sex sbp tc hdl smoker diabetes egfr crp vasc :=
  round1_nonneg (tenYearRaw_nonneg age sex sbp tc hdl smoker diabetes egfr crp vasc)

lemma estimate_10y_risk_le_95 (age : ℝ) (sex : String) (sbp tc hdl : ℝ)
    (smoker diabetes : Bool) (egfr crp vasc : ℝ) :
    estimate_10y_risk age sex sbp tc hdl smoker diabetes egfr crp vasc ≤ 95 :=
  round1_le_95 (tenYearRaw_le_95 age sex sbp tc hdl smoker diabetes egfr crp vasc)

lemma round1_idem (x : ℝ) : round1 (round1 x) = round1 x :=
  round1_int_div_ten (round (10 * x))

lemma estimate_10y_risk_round1_fix (age : ℝ) (sex : String) (sbp tc hdl : ℝ)
    (smoker diabetes : Bool) (egfr crp vasc : ℝ) :
    round1 (estimate_10y_risk age sex sbp tc hdl smoker diabetes egfr crp vasc)
      = estimate_10y_risk age sex sbp tc hdl smoker diabetes egfr crp vasc :=
  round1_idem (tenYearRaw age sex sbp tc hdl smoker diabetes egfr crp vasc)

/-! ### Range facts about the horizon converters -/

lemma convert_5yr_mem {r10 : ℝ} (h0 : 0 ≤ r10) :
    0 ≤ convert_5yr r10 ∧ convert_5yr r10 ≤ 95 := by
  unfold convert_5yr
  have hp0 : 0 ≤ min r10 95.0 / 100 := by
    have := le_min h0 (by norm_num : (0:ℝ) ≤ 95.0)
    linarith
  have hp1 : min r10 95.0 / 100 ≤ 0.95 := by
    have h95 := min_le_right r10 (95.0 : ℝ)
    linarith
  have hb1 : (1 - min r10 95.0 / 100) ^ (0.5 : ℝ) ≤ 1 :=
    Real.rpow_le_one (by linarith) (by linarith) (by norm_num)
  have hb0 : 0 < (1 - min r10 95.0 / 100) ^ (0.5 : ℝ) :=
    Real.rpow_pos_of_pos (by linarith) _
  constructor
  · apply round1_nonneg
    apply le_min (by nlinarith) (by norm_num)
  · apply round1_le_95
    have hm := min_le_right ((1 - (1 - min r10 95.0 / 100) ^ (0.5 : ℝ)) * 100) (95.0 : ℝ)
    linarith

lemma estimate_lifetime_risk_mem (age : ℝ) {r10 : ℝ} (h0 : 0 ≤ r10) :
    0 ≤ estimate_lifetime_risk age r10 ∧ estimate_lifetime_risk age r10 ≤ 95 := by
  unfold estimate_lifetime_risk
  have hp0 : 0 ≤ min r10 95.0 / 100 := by
    have := le_min h0 (by norm_num : (0:ℝ) ≤ 95.0)
    linarith
  have hp1 : min r10 95.0 / 100 ≤ 0.95 := by
    have h95 := min_le_right r10 (95.0 : ℝ)
    linarith
  have hb1 : (1 - min r10 95.0 / 100) ^ ((1 : ℝ) / 10) ≤ 1 :=
    Real.rpow_le_one (by linarith) (by linarith) (by norm_num)
  have hb0 : 0 < (1 - min r10 95.0 / 100) ^ ((1 : ℝ) / 10) :=
    Real.rpow_pos_of_pos (by linarith) _
  have hy : 0 ≤ max (85 - age) 0 := le_max_right _ _
  have hc1 : (1 - (1 - (1 - min r10 95.0 / 100) ^ ((1 : ℝ) / 10))) ^ (max (85 - age) 0) ≤ 1 := by
    rw [sub_sub_cancel]
    exact Real.rpow_le_one hb0.le hb1 hy
  have hc0 : 0 < (1 - (1 - (1 - min r10 95.0 / 100) ^ ((1 : ℝ) / 10))) ^ (max (85 - age) 0) := by
    rw [sub_sub_cancel]
    exact Real.rpow_pos_of_pos hb0 _
  constructor
  · apply round1_nonneg
    apply le_min (by nlinarith) (by norm_num)
  · apply round1_le_95
    have hm := min_le_right ((1 - (1 - (1 - (1 - min r10 95.0 / 100) ^ ((1 : ℝ) / 10)))
      ^ (max (85 - age) 0)) * 100) (95.0 : ℝ)
    linarith

/-- C5: for every profile, the ten-year risk, the derived five-year risk
and the derived lifetime risk all lie in the closed interval [0, 95.0]. -/
theorem claim5_risk_range (age : ℝ) (sex : String) (sbp tc hdl : ℝ)
    (smoker diabetes : Bool) (egfr crp vasc lifetimeAge : ℝ) :
    0 ≤ estimate_10y_risk age sex sbp tc hdl smoker diabetes egfr crp vasc
    ∧ estimate_10y_risk age sex sbp tc hdl smoker diabetes egfr crp vasc ≤ 95.0
    ∧ 0 ≤ convert_5yr (estimate_10y_risk age sex sbp tc hdl smoker diabetes egfr crp vasc)
    ∧ convert_5yr (estimate_10y_risk age sex sbp tc hdl smoker diabetes egfr crp vasc) ≤ 95.0
    ∧ 0 ≤ estimate_lifetime_risk lifetimeAge
        (estimate_10y_risk age sex sbp tc hdl smoker diabetes egfr crp vasc)
    ∧ estimate_lifetime_risk lifetimeAge
        (estimate_10y_risk age sex sbp tc hdl smoker diabetes egfr crp vasc) ≤ 95.0 := by
  have h0 := estimate_10y_risk_nonneg age sex sbp tc hdl smoker diabetes egfr crp vasc
  have h1 := estimate_10y_risk_le_95 age sex sbp tc hdl smoker diabetes egfr crp vasc
  have h5 := convert_5yr_mem h0
  have hl := estimate_lifetime_risk_mem lifetimeAge h0
  refine ⟨h0, by linarith, h5.1, by linarith [h5.2], hl.1, by linarith [hl.2]⟩

/-! ### Horizon monotonicity -/

/-- C6: the five-year risk derived from a ten-year risk produced by the
estimator never exceeds that ten-year risk. -/
theorem claim6_five_le_ten (age : ℝ) (sex : String) (sbp tc hdl : ℝ)
    (smoker diabetes : Bool) (egfr crp vasc : ℝ) :
    convert_5yr (estimate_10y_risk age sex sbp tc hdl smoker diabetes egfr crp vasc)
      ≤ estimate_10y_risk age sex sbp tc hdl smoker diabetes egfr crp vasc := by
  set r10 := estimate_10y_risk age sex sbp tc hdl smoker diabetes egfr crp vasc with hr
  have h0 : 0 ≤ r10 := estimate_10y_risk_nonneg age sex sbp tc hdl smoker diabetes egfr crp vasc
  have h95 : r10 ≤ 95 := estimate_10y_risk_le_95 age sex sbp tc hdl smoker diabetes egfr crp vasc
  have hfix : round1 r10 = r10 :=
    estimate_10y_risk_round1_fix age sex sbp tc hdl smoker diabetes egfr crp vasc
  show round1 (min ((1 - (1 - min r10 95.0 / 100) ^ (0.5 : ℝ)) * 100) 95.0) ≤ r10
  have hmin : min r10 95.0 = r10 := min_eq_left (by norm_num; linarith)
  rw [hmin]
  have hkey : (1 - r10 / 100) ^ (1 : ℝ) ≤ (1 - r10 / 100) ^ (0.5 : ℝ) :=
    Real.rpow_le_rpow_of_exponent_ge (by linarith) (by linarith) (by norm_num)
  rw [Real.rpow_one] at hkey
  have h2 : min ((1 - (1 - r10 / 100) ^ (0.5 : ℝ)) * 100) 95.0 ≤ r10 :=
    le_trans (min_le_left _ _) (by linarith)
  calc round1 (min ((1 - (1 - r10 / 100) ^ (0.5 : ℝ)) * 100) 95.0)
      ≤ round1 r10 := round1_mono h2
    _ = r10 := hfix

lemma lifetime_ge_of_age_le_75 {age r10 : ℝ} (hage : age ≤ 75) (h0 : 0 ≤ r10)
    (h95 : r10 ≤ 95) (hfix : round1 r10 = r10) : r10 ≤ estimate_lifetime_risk age r10 := by
  show r10 ≤ round1 (min ((1 - (1 - (1 - (1 - min r10 95.0 / 100) ^ ((1 : ℝ) / 10)))
    ^ (max (85 - age) 0)) * 100) 95.0)
  have hmin : min r10 95.0 = r10 := min_eq_left (by norm_num; linarith)
  have hy : max (85 - age) 0 = 85 - age := max_eq_left (by linarith)
  rw [hmin, hy, sub_sub_cancel]
  have hb0 : (0 : ℝ) < 1 - r10 / 100 := by linarith
  have hcomp : ((1 - r10 / 100) ^ ((1 : ℝ) / 10)) ^ (85 - age)
      = (1 - r10 / 100) ^ ((1 / 10 : ℝ) * (85 - age)) := by
    rw [← Real.rpow_mul hb0.le]
  have hkey : (1 - r10 / 100) ^ ((1 / 10 : ℝ) * (85 - age)) ≤ (1 - r10 / 100) ^ (1 : ℝ) :=
    Real.rpow_le_rpow_of_exponent_ge hb0 (by linarith) (by linarith)
  rw [Real.rpow_one] at hkey
  rw [hcomp]
  have h2 : r10 ≤ min ((1 - (1 - r10 / 100) ^ ((1 / 10 : ℝ) * (85 - age))) * 100) 95.0 :=
    le_min (by linarith) (by norm_num; linarith)
  calc r10 = round1 r10 := hfix.symm
    _ ≤ round1 (min ((1 - (1 - r10 / 100) ^ ((1 / 10 : ℝ) * (85 - age))) * 100) 95.0) :=
      round1_mono h2

/-- C2 amended: for every age at most 75 (so that at least ten of the
projection years remain) and every ten-year risk value produced by the
ten-year estimator, the lifetime risk is at least the ten-year risk; for
ages 76–84 the lifetime projection can fall below the ten-year risk. -/
theorem claim2_amended (age ageP : ℝ) (sex : String) (sbp tc hdl : ℝ)
    (smoker diabetes : Bool) (egfr crp vasc : ℝ) (hage : age ≤ 75) :
    estimate_10y_risk ageP sex sbp tc hdl smoker diabetes egfr crp vasc
      ≤ estimate_lifetime_risk age
        (estimate_10y_risk ageP sex sbp tc hdl smoker diabetes egfr crp vasc) :=
  lifetime_ge_of_age_le_75 hage
    (estimate_10y_risk_nonneg ageP sex sbp tc hdl smoker diabetes egfr crp vasc)
    (estimate_10y_risk_le_95 ageP sex sbp tc hdl smoker diabetes egfr crp vasc)
    (estimate_10y_risk_round1_fix ageP sex sbp tc hdl smoker diabetes egfr crp vasc)

theorem claim2_witness :
    (60 : ℝ) ≤ 75
    ∧ estimate_10y_risk 60 "Male" 140 5.2 1.3 false false 90 2.5 0
      ≤ estimate_lifetime_risk 60 (estimate_10y_risk 60 "Male" 140 5.2 1.3 false false 90 2.5 0) :=
  ⟨by norm_num, claim2_amended 60 60 "Male" 140 5.2 1.3 false false 90 2.5 0 (by norm_num)⟩

/-! ### The extreme profile driving the counterexamples -/

lemma exp_ge_53 {x : ℝ} (hx : 4 ≤ x) : (53 : ℝ) ≤ Real.exp x := by
  have h1 : Real.exp (((4 : ℕ) : ℝ) * (1 : ℝ)) = Real.exp 1 ^ (4 : ℕ) := Real.exp_nat_mul 1 4
  have h2 : (2.7182818283 : ℝ) ^ (4 : ℕ) ≤ Real.exp 1 ^ (4 : ℕ) :=
    pow_le_pow_left (by norm_num) Real.exp_one_gt_d9.le 4
  have h3 : (((4 : ℕ) : ℝ) * (1 : ℝ)) = (4 : ℝ) := by norm_num
  have h4 : Real.exp 4 ≤ Real.exp x := Real.exp_le_exp.mpr hx
  have h5 : (53 : ℝ) ≤ (2.7182818283 : ℝ) ^ (4 : ℕ) := by norm_num
  rw [h3] at h1
  linarith

lemma rpow_09_le {x : ℝ} (hx : 4 ≤ x) : (0.900 : ℝ) ^ Real.exp x ≤ 0.05 := by
  have h53 := exp_ge_53 hx
  have h1 : (0.900 : ℝ) ^ Real.exp x ≤ (0.900 : ℝ) ^ (53 : ℝ) :=
    Real.rpow_le_rpow_of_exponent_ge (by norm_num) (by norm_num) h53
  have h2 : (0.900 : ℝ) ^ (((53 : ℕ)) : ℝ) = (0.900 : ℝ) ^ (53 : ℕ) := Real.rpow_natCast _ 53
  have h4 : (((53 : ℕ)) : ℝ) = (53 : ℝ) := by norm_num
  rw [h4] at h2
  have h3 : (0.900 : ℝ) ^ (53 : ℕ) ≤ 0.05 := by norm_num
  linarith

lemma estimate_10y_risk_hi (age : ℝ) (sex : String) (sbp tc hdl : ℝ)
    (smoker diabetes : Bool) (egfr crp vasc : ℝ)
    (hlp : 4 ≤ linear_predictor age sex sbp tc hdl smoker diabetes egfr crp vasc - 5.8) :
    estimate_10y_risk age sex sbp tc hdl smoker diabetes egfr crp vasc = 95 := by
  unfold estimate_10y_risk tenYearRaw
  have h := rpow_09_le hlp
  have hmin : min ((1 - (0.900 : ℝ) ^ Real.exp
      (linear_predictor age sex sbp tc hdl smoker diabetes egfr crp vasc - 5.8)) * 100) 95.0
      = 95.0 := min_eq_right (by norm_num; linarith)
  rw [hmin, show (95.0 : ℝ) = 95 by norm_num, round1_95]

lemma lp_extreme (age : ℝ) :
    linear_predictor age "Male" 200 10 0.5 true true 15 0 0 = 0.064 * age + 7.365 := by
  simp only [linear_predictor]
  norm_num [Real.log_one]
  ring

lemma lifetime_84_95_small : estimate_lifetime_risk 84 95 ≤ 50 := by
  show round1 (min ((1 - (1 - (1 - (1 - min (95 : ℝ) 95.0 / 100) ^ ((1 : ℝ) / 10)))
    ^ (max (85 - (84 : ℝ)) 0)) * 100) 95.0) ≤ 50
  have hmin : min (95 : ℝ) 95.0 = 95 := by norm_num
  have hy : max (85 - (84 : ℝ)) 0 = 1 := by norm_num
  rw [hmin, hy, sub_sub_cancel, Real.rpow_one]
  have e3 : (((1 : ℝ) / 2) ^ (10 : ℝ)) ^ ((1 : ℝ) / 10) = (1 : ℝ) / 2 := by
    rw [← Real.rpow_mul (by norm_num), show (10 : ℝ) * ((1 : ℝ) / 10) = 1 by norm_num,
      Real.rpow_one]
  have e1 : ((1 : ℝ) / 2) ^ (10 : ℝ) = 1 / 1024 := by
    rw [show (10 : ℝ) = ((10 : ℕ) : ℝ) by norm_num, Real.rpow_natCast]
    norm_num
  have hb : (1 / 2 : ℝ) ≤ (1 - (95 : ℝ) / 100) ^ ((1 : ℝ) / 10) := by
    rw [← e3, e1]
    exact Real.rpow_le_rpow (by norm_num) (by norm_num) (by norm_num)
  have h2 : min ((1 - (1 - (95 : ℝ) / 100) ^ ((1 : ℝ) / 10)) * 100) 95.0 ≤ 50 :=
    le_trans (min_le_left _ _) (by linarith)
  calc round1 (min ((1 - (1 - (95 : ℝ) / 100) ^ ((1 : ℝ) / 10)) * 100) 95.0)
      ≤ round1 50 := round1_mono h2
    _ = 50 := by
      have := round1_int_div_ten 500
      norm_num at this
      exact this

/-- C2 counterexample: at age 84 (which is < 85) with an extreme risk
profile, the ten-year estimator returns 95.0 while the lifetime risk
projected over the single remaining year is at most 50, strictly below
the ten-year risk — refuting lifetime ≥ ten-year for all ages < 85. -/
theorem claim2_counterexample :
    estimate_lifetime_risk 84 (estimate_10y_risk 84 "Male" 200 10 0.5 true true 15 0 0)
      < estimate_10y_risk 84 "Male" 200 10 0.5 true true 15 0 0
    ∧ (84 : ℝ) < 85 := by
  have h95 : estimate_10y_risk 84 "Male" 200 10 0.5 true true 15 0 0 = 95 := by
    apply estimate_10y_risk_hi
    rw [lp_extreme]
    norm_num
  rw [h95]
  exact ⟨lt_of_le_of_lt lifetime_84_95_small (by norm_num), by norm_num⟩

lemma lifetime_60_95 : estimate_lifetime_risk 60 95 = 95 := by
  show round1 (min ((1 - (1 - (1 - (1 - min (95 : ℝ) 95.0 / 100) ^ ((1 : ℝ) / 10)))
    ^ (max (85 - (60 : ℝ)) 0)) * 100) 95.0) = 95
  have hmin : min (95 : ℝ) 95.0 = 95 := by norm_num
  have hy : max (85 - (60 : ℝ)) 0 = 25 := by norm_num
  rw [hmin, hy, sub_sub_cancel]
  have hb0 : (0 : ℝ) < 1 - (95 : ℝ) / 100 := by norm_num
  have hcomp : ((1 - (95 : ℝ) / 100) ^ ((1 : ℝ) / 10)) ^ (25 : ℝ)
      = (1 - (95 : ℝ) / 100) ^ ((1 / 10 : ℝ) * 25) := by
    rw [← Real.rpow_mul hb0.le]
  have hkey : (1 - (95 : ℝ) / 100) ^ ((1 / 10 : ℝ) * 25) ≤ (1 - (95 : ℝ) / 100) ^ (2 : ℝ) :=
    Real.rpow_le_rpow_of_exponent_ge hb0 (by norm_num) (by norm_num)
  have h2 : (1 - (95 : ℝ) / 100) ^ (2 : ℝ) = 1 / 400 := by
    rw [show (2 : ℝ) = ((2 : ℕ) : ℝ) by norm_num, Real.rpow_natCast]
    norm_num
  rw [hcomp]
  have hmin2 : min ((1 - (1 - (95 : ℝ) / 100) ^ ((1 / 10 : ℝ) * 25)) * 100) 95.0 = 95.0 :=
    min_eq_right (by rw [h2] at hkey; norm_num; linarith)
  rw [hmin2, show (95.0 : ℝ) = 95 by norm_num, round1_95]

/-- C3 counterexample: at age 60 (< 85) with an extreme profile the
ten-year risk is 95.0 (non-zero) and the lifetime risk is also 95.0, so
ARR = 0 and Python's truthiness test makes RRR "N/A" even though ARR is
defined and the ten-year risk is non-zero — refuting "RRR is N/A exactly
when age ≥ 85 or the ten-year risk is zero". -/
theorem claim3_counterexample :
    rrr10 60 (estimate_10y_risk 60 "Male" 200 10 0.5 true true 15 0 0)
      (estimate_lifetime_risk 60 (estimate_10y_risk 60 "Male" 200 10 0.5 true true 15 0 0)) = none
    ∧ (60 : ℝ) < 85
    ∧ estimate_10y_risk 60 "Male" 200 10 0.5 true true 15 0 0 ≠ 0 := by
  have h95 : estimate_10y_risk 60 "Male" 200 10 0.5 true true 15 0 0 = 95 := by
    apply estimate_10y_risk_hi
    rw [lp_extreme]
    norm_num
  rw [h95, lifetime_60_95]
  refine ⟨?_, by norm_num, by norm_num⟩
  norm_num [rrr10, arr10]

open Classical in
/-- C3 amended: RRR is "not applicable" exactly when ARR is "not
applicable" (age ≥ 85) or ARR equals zero (which covers ten-year risk
zero, but also any case where lifetime risk equals ten-year risk); in
every other case RRR equals ARR / ten-year-risk × 100 rounded to one
decimal. -/
theorem claim3_amended (age r10 rlt : ℝ) :
    rrr10 age r10 rlt
      = if age < 85 ∧ r10 - rlt ≠ 0 then some (round1 ((r10 - rlt) / r10 * 100))
        else none := by
  unfold rrr10 arr10
  by_cases hage : age < 85
  · by_cases hz : r10 - rlt = 0
    · simp [hage, hz]
    · simp [hage, hz]
  · simp [hage]

/-! ### Lifetime risk at age ≥ 85 -/

/-- C1 counterexample: at age 85 the bare `estimate_lifetime_risk`
function does not return a "not applicable" marker — it returns the
computed number 0.0 (here at ten-year risk 50). -/
theorem claim1_counterexample : estimate_lifetime_risk 85 50 = 0 := by
  show round1 (min ((1 - (1 - (1 - (1 - min (50 : ℝ) 95.0 / 100) ^ ((1 : ℝ) / 10)))
    ^ (max (85 - (85 : ℝ)) 0)) * 100) 95.0) = 0
  have hy : max (85 - (85 : ℝ)) 0 = 0 := by norm_num
  rw [hy, Real.rpow_zero]
  norm_num [round1_zero]

/-- C1 amended: for age ≥ 85 the bare `estimate_lifetime_risk` function
returns the number 0.0, and the results step (line 177) replaces it with
the explicit "N/A" value, so the surfaced lifetime risk for age ≥ 85 is
the explicit not-applicable marker, never a numeric percentage. -/
theorem claim1_amended (age r10 : ℝ) (h : 85 ≤ age) :
    lifetimeDisplay age r10 = none ∧ estimate_lifetime_risk age r10 = 0 := by
  constructor
  · simp [lifetimeDisplay, h]
  · show round1 (min ((1 - (1 - (1 - (1 - min r10 95.0 / 100) ^ ((1 : ℝ) / 10)))
      ^ (max (85 - age) 0)) * 100) 95.0) = 0
    have hy : max (85 - age) 0 = 0 := max_eq_right (by linarith)
    rw [hy, Real.rpow_zero]
    norm_num [round1_zero]

theorem claim1_witness :
    (85 : ℝ) ≤ 85
    ∧ (lifetimeDisplay 85 50 = none ∧ estimate_lifetime_risk 85 50 = 0) :=
  ⟨by norm_num, claim1_amended 85 50 (by norm_num)⟩

/-! ### Formula fidelity and the log domain -/

/-- C4: for every input with crp > −1, `estimate_10y_risk` returns exactly
the closed-form value prescribed by spec §4.2 (same linear predictor, the
`1 − 0.900^(e^(lp−5.8))` transform, the 95.0 cap and one-decimal
rounding, with Male/smoker/diabetic encoded 1 and 0 otherwise). -/
theorem claim4_formula (age : ℝ) (sex : String) (sbp tc hdl : ℝ)
    (smoker diabetes : Bool) (egfr crp vasc : ℝ) (h : -1 < crp) :
    estimate_10y_risk age sex sbp tc hdl smoker diabetes egfr crp vasc
      = specTenYearRisk age sex sbp tc hdl smoker diabetes egfr crp vasc := rfl

theorem claim4_witness :
    -1 < (2.5 : ℝ)
    ∧ estimate_10y_risk 85 "Male" 140 5.2 1.3 false false 90 2.5 0
      = specTenYearRisk 85 "Male" 140 5.2 1.3 false false 90 2.5 0 :=
  ⟨by norm_num, claim4_formula 85 "Male" 140 5.2 1.3 false false 90 2.5 0 (by norm_num)⟩

open Classical in
/-- C9: the checked ten-year estimator (with Python's partial `math.log`
made explicit) fails exactly when crp ≤ −1, and for crp > −1 it returns
the total estimator's value — no other failure mode. -/
theorem claim9_domain (age : ℝ) (sex : String) (sbp tc hdl : ℝ)
    (smoker diabetes : Bool) (egfr crp vasc : ℝ) :
    estimate_10y_risk_checked age sex sbp tc hdl smoker diabetes egfr crp vasc
      = if crp ≤ -1 then none
        else some (estimate_10y_risk age sex sbp tc hdl smoker diabetes egfr crp vasc) := by
  unfold estimate_10y_risk_checked mathLog
  by_cases h : crp + 1 ≤ 0
  · rw [if_pos h, if_pos (show crp ≤ -1 by linarith)]
  · rw [if_neg h, if_neg (show ¬crp ≤ -1 by intro hc; exact h (by linarith))]
    rfl

end HopeCVD
